import Mathlib

/-!
Shallow embedding of the `mygameconsole` firmware (`src/firmware/src/main.rs`
and `src/firmware/src/hw.rs`) and proofs about its game logic, PRNG and
keyboard edge detection.

Machine integers are modelled as `Nat` with explicit `% 2 ^ w` where the
source's wrap-around matters (`u32` shifts in the PRNG, the `u8` exponent
increment in `slide_line`).  The volatile keyboard-register read becomes an
explicit argument of the keyboard operations.
-/

set_option maxHeartbeats 2000000

namespace MyGameConsole

/-- `const GRID: usize = 4` from `main.rs`. -/
def GRID : Nat := 4

/-- The `Game` struct of `main.rs`: a `GRID×GRID` grid of `u8` exponent
cells (`0` = empty, `n ≥ 1` = a tile of value `2 ^ n`), a `u32` score and the
`u32` xorshift PRNG state. -/
structure Game where
  grid : List (List Nat)
  score : Nat
  rng : Nat
deriving Repr, DecidableEq

/-- `Game::new()`: empty grid, score 0, rng seed 1. -/
def Game.new : Game :=
  { grid := List.replicate GRID (List.replicate GRID 0), score := 0, rng := 1 }

/-- The xorshift32 update of `Game::next_rand`:
`x ^= x << 13; x ^= x >> 17; x ^= x << 5` on `u32` (left shifts truncated to
32 bits, as Rust's `u32` shift does). -/
def xorshift32 (x : Nat) : Nat :=
  let x1 := x ^^^ (x <<< 13 % 2 ^ 32)
  let x2 := x1 ^^^ (x1 >>> 17)
  x2 ^^^ (x2 <<< 5 % 2 ^ 32)

/-- `Game::next_rand()`: steps the PRNG state and returns the drawn value
together with the updated game. -/
def Game.next_rand (g : Game) : Nat × Game :=
  let x := xorshift32 g.rng
  (x, { g with rng := x })

/-- Read cell `(y, x)` of a grid (`self.grid[y][x]`; the `0` defaults are
never hit on a well-formed 4×4 grid). -/
def gridGet (grid : List (List Nat)) (y x : Nat) : Nat :=
  (grid.getD y []).getD x 0

/-- Write cell `(y, x)` of a grid (`self.grid[y][x] = v`). -/
def gridSet (grid : List (List Nat)) (y x v : Nat) : List (List Nat) :=
  grid.set y ((grid.getD y []).set x v)

/-- The row-major list of empty positions `y * GRID + x` collected by the
double loop at the start of `Game::spawn_tile` (`for y { for x { if
grid[y][x] == 0 { push(y * GRID + x) } } }`): exactly the positions
`p < GRID * GRID` whose cell `(p / GRID, p % GRID)` is zero, in increasing
order. -/
def empties (grid : List (List Nat)) : List Nat :=
  (List.range (GRID * GRID)).filter fun p => decide (gridGet grid (p / GRID) (p % GRID) = 0)

/-- `Game::spawn_tile()`: if an empty cell exists, draw a PRNG value to pick
`empties[draw % count]`, draw again, and set that cell to exponent 2 when the
second draw's low two bits are zero (`next_rand() & 3 == 0`), else to 1. -/
def Game.spawn_tile (g : Game) : Game :=
  let es := empties g.grid
  let count := es.length
  if count = 0 then g
  else
    let r1 := g.next_rand
    let idx := r1.1 % count
    let pos := es.getD idx 0
    let y := pos / GRID
    let x := pos % GRID
    let r2 := r1.2.next_rand
    { r2.2 with grid := gridSet r2.2.grid y x (if r2.1 &&& 3 = 0 then 2 else 1) }

/-- The grid-clearing double loop of `Game::reset` (`grid[y][x] = 0` for all
`y, x < GRID`). -/
def clearGrid (grid : List (List Nat)) : List (List Nat) :=
  (List.range GRID).foldl
    (fun g y => (List.range GRID).foldl (fun g2 x => gridSet g2 y x 0) g) grid

/-- `Game::reset()`: clear the grid, zero the score, spawn two tiles. -/
def Game.reset (g : Game) : Game :=
  (Game.spawn_tile (Game.spawn_tile { g with grid := clearGrid g.grid, score := 0 }))

/-- Pass 1 of `Game::slide_line` (compact towards index 0), one loop
iteration.  State: `(line, target, moved)`. -/
def compactStep (s : List Nat × Nat × Bool) (i : Nat) : List Nat × Nat × Bool :=
  if s.1.getD i 0 ≠ 0 then
    if i ≠ s.2.1 then
      ((s.1.set s.2.1 (s.1.getD i 0)).set i 0, s.2.1 + 1, true)
    else (s.1, s.2.1 + 1, s.2.2)
  else s

/-- Pass 2 of `Game::slide_line` (merge adjacent equal non-zero cells), one
loop iteration.  The `u8` exponent increment wraps at 256.  State:
`(line, moved)`. -/
def mergeStep (s : List Nat × Bool) (i : Nat) : List Nat × Bool :=
  if s.1.getD i 0 ≠ 0 ∧ s.1.getD i 0 = s.1.getD (i + 1) 0 then
    ((s.1.set i ((s.1.getD i 0 + 1) % 256)).set (i + 1) 0, true)
  else s

/-- Pass 3 of `Game::slide_line` (compact again, no `moved` tracking), one
loop iteration.  State: `(line, target)`. -/
def compact2Step (s : List Nat × Nat) (i : Nat) : List Nat × Nat :=
  if s.1.getD i 0 ≠ 0 then
    if i ≠ s.2 then
      ((s.1.set s.2 (s.1.getD i 0)).set i 0, s.2 + 1)
    else (s.1, s.2 + 1)
  else s

/-- `Game::slide_line`: compact, merge, compact; returns the slid line and
the `moved` flag. -/
def slide_line (line : List Nat) : List Nat × Bool :=
  let s1 := (List.range GRID).foldl compactStep (line, 0, false)
  let s2 := (List.range (GRID - 1)).foldl mergeStep (s1.1, s1.2.2)
  let s3 := (List.range GRID).foldl compact2Step (s2.1, 0)
  (s3.1, s2.2)

/-- The `Direction` enum of `main.rs`. -/
inductive Direction where
  | Up
  | Down
  | Left
  | Right
deriving Repr, DecidableEq

/-- The grid phase of `Game::make_move`: slide the four lines selected by
`dir` (rows for Left, reversed rows for Right, columns for Up, reversed
columns for Down), OR-ing the per-line `moved` flags. -/
def slideGrid (grid : List (List Nat)) (dir : Direction) : List (List Nat) × Bool :=
  match dir with
  | .Left =>
      (List.range GRID).foldl (fun s y =>
        let r := slide_line (s.1.getD y [])
        (s.1.set y r.1, s.2 || r.2)) (grid, false)
  | .Right =>
      (List.range GRID).foldl (fun s y =>
        let r := slide_line (s.1.getD y []).reverse
        (s.1.set y r.1.reverse, s.2 || r.2)) (grid, false)
  | .Up =>
      (List.range GRID).foldl (fun s x =>
        let col := (List.range GRID).map fun y => gridGet s.1 y x
        let r := slide_line col
        ((List.range GRID).foldl (fun g y => gridSet g y x (r.1.getD y 0)) s.1,
          s.2 || r.2)) (grid, false)
  | .Down =>
      (List.range GRID).foldl (fun s x =>
        let col := (List.range GRID).map fun y => gridGet s.1 (GRID - 1 - y) x
        let r := slide_line col
        ((List.range GRID).foldl (fun g y => gridSet g (GRID - 1 - y) x (r.1.getD y 0)) s.1,
          s.2 || r.2)) (grid, false)

/-- `Game::make_move(dir)`: slide the grid, and when any line moved spawn a
tile.  Returns the `moved` flag and the updated game. -/
def Game.make_move (g : Game) (dir : Direction) : Bool × Game :=
  let r := slideGrid g.grid dir
  let g1 : Game := { g with grid := r.1 }
  if r.2 then (true, g1.spawn_tile) else (false, g1)

/-- The `Keyboard` struct of `hw.rs`: the latched previous register sample. -/
structure Keyboard where
  prev_state : Nat
deriving Repr, DecidableEq

/-- `Keyboard::new()`. -/
def Keyboard.new : Keyboard := { prev_state := 0 }

/-- `Keyboard::just_pressed_idx`: the volatile register read becomes the
explicit `current` argument.  Latches `current` into `prev_state`
unconditionally and reports a 0→1 edge of bit `bit_index`. -/
def Keyboard.just_pressed_idx (k : Keyboard) (bit_index : Nat) (current : Nat) :
    Bool × Keyboard :=
  let mask := 1 <<< bit_index
  let previously_set := k.prev_state &&& mask != 0
  let now_set := current &&& mask != 0
  (now_set && !previously_set, { prev_state := current })

/-- `Keyboard::letter_index`: ASCII letter (either case) to bit index 0–25,
`none` for non-letters.  `ch as u32 as u8` is `toNat % 256`. -/
def letter_index (ch : Char) : Option Nat :=
  let byte := ch.toNat % 256
  let upper := if 97 ≤ byte ∧ byte ≤ 122 then byte - 32 else byte
  if 65 ≤ upper ∧ upper ≤ 90 then some (upper - 65) else none

/-- `Keyboard::just_pressed`: letter-indexed edge query; non-letters return
`false` without reading the register or touching the latch. -/
def Keyboard.just_pressed (k : Keyboard) (ch : Char) (current : Nat) :
    Bool × Keyboard :=
  match letter_index ch with
  | some idx => k.just_pressed_idx idx current
  | none => (false, k)

/-- Number of non-zero (occupied) cells in a line. -/
def countNZ : List Nat → Nat
  | [] => 0
  | v :: l => (if v ≠ 0 then 1 else 0) + countNZ l

/-- Number of occupied cells of a grid. -/
def occupied (grid : List (List Nat)) : Nat := (grid.map countNZ).sum

/-- Total tile value of a line: `2 ^ e` summed over non-zero cells. -/
def lineValue : List Nat → Nat
  | [] => 0
  | v :: l => (if v ≠ 0 then 2 ^ v else 0) + lineValue l

/-- Well-formed grid: the shape of `[[u8; GRID]; GRID]`. -/
def WFGrid (grid : List (List Nat)) : Prop :=
  grid.length = GRID ∧ ∀ r ∈ grid, r.length = GRID

instance (grid : List (List Nat)) : Decidable (WFGrid grid) := by
  unfold WFGrid
  infer_instance

/-- No position of the line holds a non-zero cell equal to its successor,
i.e. the guard of `slide_line`'s merge pass can fire nowhere. -/
def NoMergePair (l : List Nat) : Prop :=
  ∀ i, ¬(l.getD i 0 ≠ 0 ∧ l.getD i 0 = l.getD (i + 1) 0)

/-- Modelled from the claim's words (C1): same cell selection as
`Game::spawn_tile`, but the spawned exponent is 2 when the second draw's low
two bits are non-zero (the asserted probability-3/4 case) and 1 when they
are zero. -/
def Game.spawnClaimed (g : Game) : Game :=
  let es := empties g.grid
  let count := es.length
  if count = 0 then g
  else
    let r1 := g.next_rand
    let idx := r1.1 % count
    let pos := es.getD idx 0
    let y := pos / GRID
    let x := pos % GRID
    let r2 := r1.2.next_rand
    { r2.2 with grid := gridSet r2.2.grid y x (if r2.1 &&& 3 = 0 then 1 else 2) }

/-- States reachable by the main loop of `main.rs`: start at `Game::new`,
then any sequence of `make_move` and `reset` calls. -/
inductive Reachable : Game → Prop where
  | new : Reachable Game.new
  | move (g : Game) (dir : Direction) : Reachable g → Reachable (g.make_move dir).2
  | reset (g : Game) : Reachable g → Reachable g.reset

/-- The non-zero cells of a line, in order. -/
def nz4 (l : List Nat) : List Nat := l.filter fun v => decide (v ≠ 0)

/-- Pad a line with zeros back to length `GRID`. -/
def pad4 (l : List Nat) : List Nat := l ++ List.replicate (GRID - l.length) 0

/-- Single left-to-right merge scan on the non-zero prefix of a compacted
line (the merged-into cell is skipped, each cell merges at most once). -/
def merge4 : List Nat → List Nat × Bool
  | [p, q, r, s] =>
      if p = q then
        (if r = s then [(p + 1) % 256, (r + 1) % 256] else [(p + 1) % 256, r, s], true)
      else if q = r then ([p, (q + 1) % 256, s], true)
      else if r = s then ([p, q, (r + 1) % 256], true)
      else ([p, q, r, s], false)
  | [p, q, r] =>
      if p = q then ([(p + 1) % 256, r], true)
      else if q = r then ([p, (q + 1) % 256], true)
      else ([p, q, r], false)
  | [p, q] => if p = q then ([(p + 1) % 256], true) else ([p, q], false)
  | l => (l, false)

theorem grid_eq : GRID = 4 := rfl

theorem range4 : List.range 4 = [0, 1, 2, 3] := rfl

theorem range3 : List.range 3 = [0, 1, 2] := rfl

/-- Closed form of `slide_line` on a 4-cell line: the result is the
non-zero cells compacted, single-scan merged, re-compacted and padded
with zeros, and the `moved` flag is set iff compaction moved a cell or a
merge happened. -/
theorem slide_master (a b c d : Nat) :
    (slide_line [a, b, c, d]).1 = pad4 (nz4 (merge4 (nz4 [a, b, c, d])).1) ∧
    ((slide_line [a, b, c, d]).2 = true ↔
      (pad4 (nz4 [a, b, c, d]) ≠ [a, b, c, d] ∨ (merge4 (nz4 [a, b, c, d])).2 = true)) := by
  by_cases ha : a = 0
  · subst ha
    by_cases hb : b = 0
    · subst hb
      by_cases hc : c = 0
      · subst hc
        by_cases hd : d = 0
        · subst hd
          simp [slide_line, grid_eq, range4, range3, compactStep, mergeStep, compact2Step, nz4, pad4, merge4, List.getD]
        · simp [slide_line, grid_eq, range4, range3, compactStep, mergeStep, compact2Step, nz4, pad4, merge4, List.getD, hd]
      · by_cases hd : d = 0
        · subst hd
          simp [slide_line, grid_eq, range4, range3, compactStep, mergeStep, compact2Step, nz4, pad4, merge4, List.getD, hc]
        · by_cases e1 : c = d
          · subst e1
            by_cases w1 : (c + 1) % 256 = 0 <;>
              simp [slide_line, grid_eq, range4, range3, compactStep, mergeStep, compact2Step, nz4, pad4, merge4, List.getD, hc, hd, w1]
          · simp [slide_line, grid_eq, range4, range3, compactStep, mergeStep, compact2Step, nz4, pad4, merge4, List.getD, hc, hd, e1]
    · by_cases hc : c = 0
      · subst hc
        by_cases hd : d = 0
        · subst hd
          simp [slide_line, grid_eq, range4, range3, compactStep, mergeStep, compact2Step, nz4, pad4, merge4, List.getD, hb]
        · by_cases e1 : b = d
          · subst e1
            by_cases w1 : (b + 1) % 256 = 0 <;>
              simp [slide_line, grid_eq, range4, range3, compactStep, mergeStep, compact2Step, nz4, pad4, merge4, List.getD, hb, hd, w1]
          · simp [slide_line, grid_eq, range4, range3, compactStep, mergeStep, compact2Step, nz4, pad4, merge4, List.getD, hb, hd, e1]
      · by_cases hd : d = 0
        · subst hd
          by_cases e1 : b = c
          · subst e1
            by_cases w1 : (b + 1) % 256 = 0 <;>
              simp [slide_line, grid_eq, range4, range3, compactStep, mergeStep, compact2Step, nz4, pad4, merge4, List.getD, hb, hc, w1]
          · simp [slide_line, grid_eq, range4, range3, compactStep, mergeStep, compact2Step, nz4, pad4, merge4, List.getD, hb, hc, e1]
        · by_cases e1 : b = c
          · subst e1
            by_cases w1 : (b + 1) % 256 = 0 <;>
              simp [slide_line, grid_eq, range4, range3, compactStep, mergeStep, compact2Step, nz4, pad4, merge4, List.getD, hb, hc, hd, w1]
          · by_cases e2 : c = d
            · subst e2
              by_cases w1 : (c + 1) % 256 = 0 <;>
                simp [slide_line, grid_eq, range4, range3, compactStep, mergeStep, compact2Step, nz4, pad4, merge4, List.getD, hb, hc, hd, e1, w1]
            · simp [slide_line, grid_eq, range4, range3, compactStep, mergeStep, compact2Step, nz4, pad4, merge4, List.getD, hb, hc, hd, e1, e2]
  · by_cases hb : b = 0
    · subst hb
      by_cases hc : c = 0
      · subst hc
        by_cases hd : d = 0
        · subst hd
          simp [slide_line, grid_eq, range4, range3, compactStep, mergeStep, compact2Step, nz4, pad4, merge4, List.getD, ha]
        · by_cases e1 : a = d
          · subst e1
            by_cases w1 : (a + 1) % 256 = 0 <;>
              simp [slide_line, grid_eq, range4, range3, compactStep, mergeStep, compact2Step, nz4, pad4, merge4, List.getD, ha, hd, w1]
          · simp [slide_line, grid_eq, range4, range3, compactStep, mergeStep, compact2Step, nz4, pad4, merge4, List.getD, ha, hd, e1]
      · by_cases hd : d = 0
        · subst hd
          by_cases e1 : a = c
          · subst e1
            by_cases w1 : (a + 1) % 256 = 0 <;>
              simp [slide_line, grid_eq, range4, range3, compactStep, mergeStep, compact2Step, nz4, pad4, merge4, List.getD, ha, hc, w1]
          · simp [slide_line, grid_eq, range4, range3, compactStep, mergeStep, compact2Step, nz4, pad4, merge4, List.getD, ha, hc, e1]
        · by_cases e1 : a = c
          · subst e1
            by_cases w1 : (a + 1) % 256 = 0 <;>
              simp [slide_line, grid_eq, range4, range3, compactStep, mergeStep, compact2Step, nz4, pad4, merge4, List.getD, ha, hc, hd, w1]
          · by_cases e2 : c = d
            · subst e2
              by_cases w1 : (c + 1) % 256 = 0 <;>
                simp [slide_line, grid_eq, range4, range3, compactStep, mergeStep, compact2Step, nz4, pad4, merge4, List.getD, ha, hc, hd, e1, w1]
            · simp [slide_line, grid_eq, range4, range3, compactStep, mergeStep, compact2Step, nz4, pad4, merge4, List.getD, ha, hc, hd, e1, e2]
    · by_cases hc : c = 0
      · subst hc
        by_cases hd : d = 0
        · subst hd
          by_cases e1 : a = b
          · subst e1
            by_cases w1 : (a + 1) % 256 = 0 <;>
              simp [slide_line, grid_eq, range4, range3, compactStep, mergeStep, compact2Step, nz4, pad4, merge4, List.getD, ha, hb, w1]
          · simp [slide_line, grid_eq, range4, range3, compactStep, mergeStep, compact2Step, nz4, pad4, merge4, List.getD, ha, hb, e1]
        · by_cases e1 : a = b
          · subst e1
            by_cases w1 : (a + 1) % 256 = 0 <;>
              simp [slide_line, grid_eq, range4, range3, compactStep, mergeStep, compact2Step, nz4, pad4, merge4, List.getD, ha, hb, hd, w1]
          · by_cases e2 : b = d
            · subst e2
              by_cases w1 : (b + 1) % 256 = 0 <;>
                simp [slide_line, grid_eq, range4, range3, compactStep, mergeStep, compact2Step, nz4, pad4, merge4, List.getD, ha, hb, hd, e1, w1]
            · simp [slide_line, grid_eq, range4, range3, compactStep, mergeStep, compact2Step, nz4, pad4, merge4, List.getD, ha, hb, hd, e1, e2]
      · by_cases hd : d = 0
        · subst hd
          by_cases e1 : a = b
          · subst e1
            by_cases w1 : (a + 1) % 256 = 0 <;>
              simp [slide_line, grid_eq, range4, range3, compactStep, mergeStep, compact2Step, nz4, pad4, merge4, List.getD, ha, hb, hc, w1]
          · by_cases e2 : b = c
            · subst e2
              by_cases w1 : (b + 1) % 256 = 0 <;>
                simp [slide_line, grid_eq, range4, range3, compactStep, mergeStep, compact2Step, nz4, pad4, merge4, List.getD, ha, hb, hc, e1, w1]
            · simp [slide_line, grid_eq, range4, range3, compactStep, mergeStep, compact2Step, nz4, pad4, merge4, List.getD, ha, hb, hc, e1, e2]
        · by_cases e1 : a = b
          · subst e1
            by_cases e2 : c = d
            · subst e2
              by_cases w1 : (a + 1) % 256 = 0 <;> by_cases w2 : (c + 1) % 256 = 0 <;>
                simp [slide_line, grid_eq, range4, range3, compactStep, mergeStep, compact2Step, nz4, pad4, merge4, List.getD, ha, hb, hc, hd, w1, w2]
            · by_cases w1 : (a + 1) % 256 = 0 <;>
                simp [slide_line, grid_eq, range4, range3, compactStep, mergeStep, compact2Step, nz4, pad4, merge4, List.getD, ha, hb, hc, hd, e2, w1]
          · by_cases e2 : b = c
            · subst e2
              by_cases w1 : (b + 1) % 256 = 0 <;>
                simp [slide_line, grid_eq, range4, range3, compactStep, mergeStep, compact2Step, nz4, pad4, merge4, List.getD, ha, hb, hc, hd, e1, w1]
            · by_cases e3 : c = d
              · subst e3
                by_cases w1 : (c + 1) % 256 = 0 <;>
                  simp [slide_line, grid_eq, range4, range3, compactStep, mergeStep, compact2Step, nz4, pad4, merge4, List.getD, ha, hb, hc, hd, e1, e2, w1]
              · simp [slide_line, grid_eq, range4, range3, compactStep, mergeStep, compact2Step, nz4, pad4, merge4, List.getD, ha, hb, hc, hd, e1, e2, e3]

theorem list_len4 {α : Type _} {l : List α} (h : l.length = 4) : ∃ a b c d, l = [a, b, c, d] := by
  rcases l with _ | ⟨a, _ | ⟨b, _ | ⟨c, _ | ⟨d, _ | ⟨e, t⟩⟩⟩⟩⟩
  · simp at h
  · simp at h
  · simp at h
  · simp at h
  · exact ⟨a, b, c, d, rfl⟩
  · simp at h

theorem countNZ_append (l1 l2 : List Nat) :
    countNZ (l1 ++ l2) = countNZ l1 + countNZ l2 := by
  induction l1 with
  | nil => simp [countNZ]
  | cons v l ih => simp [countNZ, ih]; omega

theorem countNZ_replicate_zero (n : Nat) : countNZ (List.replicate n 0) = 0 := by
  induction n with
  | zero => simp [countNZ]
  | succ n ih => simp [List.replicate_succ, countNZ, ih]

theorem countNZ_pad4 (l : List Nat) : countNZ (pad4 l) = countNZ l := by
  simp [pad4, countNZ_append, countNZ_replicate_zero]

theorem countNZ_le_length (l : List Nat) : countNZ l ≤ l.length := by
  induction l with
  | nil => simp [countNZ]
  | cons v l ih => by_cases hv : v = 0 <;> simp [countNZ, hv] <;> omega

theorem length_nz4 (l : List Nat) : (nz4 l).length = countNZ l := by
  induction l with
  | nil => simp [nz4, countNZ]
  | cons v l ih =>
      by_cases hv : v = 0 <;> simp [nz4, List.filter_cons, countNZ, hv] at ih ⊢ <;> omega

theorem nz4_all_nz (l : List Nat) : ∀ v ∈ nz4 l, v ≠ 0 := by
  intro v hv
  have := List.mem_filter.mp hv
  simpa using this.2

theorem nz4_mem {l : List Nat} {v : Nat} (h : v ∈ nz4 l) : v ∈ l :=
  (List.mem_filter.mp h).1

theorem nz4_eq_self {l : List Nat} (h : ∀ v ∈ l, v ≠ 0) : nz4 l = l := by
  apply List.filter_eq_self.mpr
  intro v hv
  simpa using h v hv

theorem nz4_idem (l : List Nat) : nz4 (nz4 l) = nz4 l :=
  nz4_eq_self (nz4_all_nz l)

theorem nz4_replicate_zero (n : Nat) : nz4 (List.replicate n 0) = [] := by
  induction n with
  | zero => simp [nz4]
  | succ n ih => simp [List.replicate_succ, nz4, List.filter_cons]

theorem nz4_pad4_of_nz {xs : List Nat} (h : ∀ v ∈ xs, v ≠ 0) :
    nz4 (pad4 xs) = xs := by
  simp [pad4, nz4, List.filter_append]
  intro v hv
  exact h v hv

theorem nz4_length_le (l : List Nat) : (nz4 l).length ≤ l.length :=
  List.length_filter_le _ l

theorem pad4_length {l : List Nat} (h : l.length ≤ 4) : (pad4 l).length = 4 := by
  simp [pad4, grid_eq]
  omega

theorem merge4_length (l : List Nat) : (merge4 l).1.length ≤ l.length := by
  rcases l with _ | ⟨p, _ | ⟨q, _ | ⟨r, _ | ⟨s, _ | ⟨t, rest⟩⟩⟩⟩⟩ <;>
    simp [merge4] <;> split_ifs <;> simp

theorem merge4_not_moved {l : List Nat} (h : (merge4 l).2 = false) :
    (merge4 l).1 = l := by
  rcases l with _ | ⟨p, _ | ⟨q, _ | ⟨r, _ | ⟨s, _ | ⟨t, rest⟩⟩⟩⟩⟩ <;>
    simp [merge4] at h ⊢ <;> split_ifs at h ⊢ <;> simp_all

theorem merge4_of_chain {l : List Nat} (h : l.Chain' (· ≠ ·)) :
    merge4 l = (l, false) := by
  rcases l with _ | ⟨p, _ | ⟨q, _ | ⟨r, _ | ⟨s, _ | ⟨t, rest⟩⟩⟩⟩⟩ <;>
    simp [List.chain'_cons] at h <;> simp [merge4]
  · simp [h]
  · simp [h.1, h.2]
  · simp [h.1, h.2.1, h.2.2]

theorem slide_line_length (a b c d : Nat) : (slide_line [a, b, c, d]).1.length = 4 := by
  rw [(slide_master a b c d).1]
  apply pad4_length
  have h1 := nz4_length_le (merge4 (nz4 [a, b, c, d])).1
  have h2 := merge4_length (nz4 [a, b, c, d])
  have h3 := nz4_length_le [a, b, c, d]
  simp at h3
  omega

theorem slide_line_destruct (a b c d : Nat) :
    ∃ p q r s, (slide_line [a, b, c, d]).1 = [p, q, r, s] :=
  list_len4 (slide_line_length a b c d)

theorem slide_line_not_moved {a b c d : Nat} (h : (slide_line [a, b, c, d]).2 = false) :
    (slide_line [a, b, c, d]).1 = [a, b, c, d] := by
  have hm := slide_master a b c d
  have h2 : ¬(pad4 (nz4 [a, b, c, d]) ≠ [a, b, c, d] ∨
      (merge4 (nz4 [a, b, c, d])).2 = true) := by
    rw [← hm.2]
    simp [h]
  push_neg at h2
  obtain ⟨hpad, hmv⟩ := h2
  have hid := merge4_not_moved (by simpa using hmv)
  rw [hm.1, hid, nz4_idem, hpad]

theorem slide_line_countNZ_le (a b c d : Nat) :
    countNZ (slide_line [a, b, c, d]).1 ≤ countNZ [a, b, c, d] := by
  rw [(slide_master a b c d).1, countNZ_pad4]
  have h1 := countNZ_le_length (nz4 (merge4 (nz4 [a, b, c, d])).1)
  have h2 := nz4_length_le (merge4 (nz4 [a, b, c, d])).1
  have h3 := merge4_length (nz4 [a, b, c, d])
  have h4 := length_nz4 [a, b, c, d]
  omega

theorem lineValue_append (l1 l2 : List Nat) :
    lineValue (l1 ++ l2) = lineValue l1 + lineValue l2 := by
  induction l1 with
  | nil => simp [lineValue]
  | cons v l ih => simp [lineValue, ih]; omega

theorem lineValue_replicate_zero (n : Nat) : lineValue (List.replicate n 0) = 0 := by
  induction n with
  | zero => simp [lineValue]
  | succ n ih => simp [List.replicate_succ, lineValue, ih]

theorem lineValue_pad4 (l : List Nat) : lineValue (pad4 l) = lineValue l := by
  simp [pad4, lineValue_append, lineValue_replicate_zero]

theorem lineValue_nz4 (l : List Nat) : lineValue (nz4 l) = lineValue l := by
  induction l with
  | nil => simp [nz4, lineValue]
  | cons v l ih =>
      by_cases hv : v = 0 <;>
        simp [nz4, List.filter_cons, lineValue, hv] at ih ⊢ <;> omega

theorem merge4_lineValue {l : List Nat} (hnz : ∀ v ∈ l, v ≠ 0)
    (hlt : ∀ v ∈ l, v < 255) : lineValue (merge4 l).1 = lineValue l := by
  have hmod : ∀ v : Nat, v < 255 → (v + 1) % 256 = v + 1 := fun v hv =>
    Nat.mod_eq_of_lt (by omega)
  rcases l with _ | ⟨p, _ | ⟨q, _ | ⟨r, _ | ⟨s, _ | ⟨t, rest⟩⟩⟩⟩⟩
  · simp [merge4]
  · simp [merge4]
  · have hp := hlt p (by simp)
    have hp0 := hnz p (by simp)
    have hq0 := hnz q (by simp)
    by_cases hpq : p = q
    · subst hpq
      simp [merge4, lineValue, hmod p hp, hp0, pow_succ]
      omega
    · simp [merge4, hpq]
  · have hp := hlt p (by simp)
    have hq := hlt q (by simp)
    have hp0 := hnz p (by simp)
    have hq0 := hnz q (by simp)
    have hr0 := hnz r (by simp)
    by_cases hpq : p = q
    · subst hpq
      simp [merge4, lineValue, hmod p hp, hp0, hr0, pow_succ]
      omega
    · by_cases hqr : q = r
      · subst hqr
        simp [merge4, hpq, lineValue, hmod q hq, hp0, hq0, pow_succ]
        omega
      · simp [merge4, hpq, hqr]
  · have hp := hlt p (by simp)
    have hq := hlt q (by simp)
    have hr := hlt r (by simp)
    have hp0 := hnz p (by simp)
    have hq0 := hnz q (by simp)
    have hr0 := hnz r (by simp)
    have hs0 := hnz s (by simp)
    by_cases hpq : p = q
    · subst hpq
      by_cases hrs : r = s
      · subst hrs
        simp [merge4, lineValue, hmod p hp, hmod r hr, hp0, hr0, pow_succ]
        omega
      · simp [merge4, hrs, lineValue, hmod p hp, hp0, hr0, hs0, pow_succ]
        omega
    · by_cases hqr : q = r
      · subst hqr
        simp [merge4, hpq, lineValue, hmod q hq, hp0, hq0, hs0, pow_succ]
        omega
      · by_cases hrs : r = s
        · subst hrs
          simp [merge4, hpq, hqr, lineValue, hmod r hr, hp0, hq0, hr0, pow_succ]
          omega
        · simp [merge4, hpq, hqr, hrs]
  · simp [merge4]

example : slide_line [1, 1, 0, 0] = ([2, 0, 0, 0], true) := by decide
example : slide_line [0, 0, 1, 1] = ([2, 0, 0, 0], true) := by decide
example : slide_line [1, 0, 1, 0] = ([2, 0, 0, 0], true) := by decide
example : slide_line [0, 0, 0, 0] = ([0, 0, 0, 0], false) := by decide
example : slide_line [1, 1, 1, 1] = ([2, 2, 0, 0], true) := by decide
example : slide_line [2, 2, 0, 0] = ([3, 0, 0, 0], true) := by decide

theorem chain_of_noMergePair {xs : List Nat} (hlen : xs.length ≤ 4)
    (hnz : ∀ v ∈ xs, v ≠ 0) (h : NoMergePair (pad4 xs)) :
    xs.Chain' (fun u v => u ≠ v) := by
  rcases xs with _ | ⟨p, _ | ⟨q, _ | ⟨r, _ | ⟨s, _ | ⟨t, rest⟩⟩⟩⟩⟩
  · simp
  · simp
  · have h0 := h 0
    have hp0 := hnz p (by simp)
    simp [pad4, grid_eq, List.getD, NoMergePair] at h0
    simp [List.chain'_cons]
    tauto
  · have h0 := h 0
    have h1 := h 1
    have hp0 := hnz p (by simp)
    have hq0 := hnz q (by simp)
    simp [pad4, grid_eq, List.getD, NoMergePair] at h0 h1
    simp [List.chain'_cons]
    tauto
  · have h0 := h 0
    have h1 := h 1
    have h2 := h 2
    have hp0 := hnz p (by simp)
    have hq0 := hnz q (by simp)
    have hr0 := hnz r (by simp)
    simp [pad4, grid_eq, List.getD, NoMergePair] at h0 h1 h2
    simp [List.chain'_cons]
    tauto
  · simp at hlen

theorem countNZ_reverse (l : List Nat) : countNZ l.reverse = countNZ l := by
  induction l with
  | nil => simp
  | cons v l ih => simp [List.reverse_cons, countNZ_append, countNZ, ih]; omega

theorem countNZ_set (l : List Nat) (i v : Nat) :
    countNZ (l.set i v) ≤ countNZ l + 1 := by
  induction l generalizing i with
  | nil => simp [countNZ]
  | cons h t ih =>
      rcases i with _ | i
      · simp [List.set, countNZ]
        by_cases hv : v = 0 <;> by_cases hh : h = 0 <;> simp [hv, hh] <;> omega
      · simp [List.set, countNZ]
        have := ih i
        omega

theorem occupied_cons (r : List Nat) (g : List (List Nat)) :
    occupied (r :: g) = countNZ r + occupied g := by
  simp [occupied]

theorem occupied_set_le {g : List (List Nat)} {y : Nat} {r : List Nat}
    (h : countNZ r ≤ countNZ (g.getD y []) + 1) :
    occupied (g.set y r) ≤ occupied g + 1 := by
  induction g generalizing y with
  | nil => simp [occupied]
  | cons g0 gs ih =>
      rcases y with _ | y
      · simp [List.set, occupied_cons] at h ⊢
        omega
      · have h2 : countNZ r ≤ countNZ (gs.getD y []) + 1 := by
          simpa [List.getD] using h
        have := ih (y := y) h2
        simp [List.set, occupied_cons]
        omega

theorem gridSet_occupied_le (g : List (List Nat)) (y x v : Nat) :
    occupied (gridSet g y x v) ≤ occupied g + 1 :=
  occupied_set_le (countNZ_set _ _ _)

theorem spawn_occupied_le (g : Game) :
    occupied (g.spawn_tile).grid ≤ occupied g.grid + 1 := by
  unfold Game.spawn_tile
  by_cases h : (empties g.grid).length = 0
  · simp [h]
  · simp [h, Game.next_rand]
    exact gridSet_occupied_le _ _ _ _

theorem spawn_rng (g : Game) (h : empties g.grid ≠ []) :
    (g.spawn_tile).rng = xorshift32 (xorshift32 g.rng) := by
  unfold Game.spawn_tile
  have hl : ¬(empties g.grid).length = 0 := by simpa using h
  simp [hl, Game.next_rand]

theorem spawn_score (g : Game) : (g.spawn_tile).score = g.score := by
  unfold Game.spawn_tile
  by_cases h : (empties g.grid).length = 0 <;> simp [h, Game.next_rand]

theorem wf_destruct {grid : List (List Nat)} (h : WFGrid grid) :
    ∃ a0 a1 a2 a3 b0 b1 b2 b3 c0 c1 c2 c3 d0 d1 d2 d3,
      grid = [[a0, a1, a2, a3], [b0, b1, b2, b3], [c0, c1, c2, c3],
        [d0, d1, d2, d3]] := by
  obtain ⟨hlen, hrows⟩ := h
  obtain ⟨r0, r1, r2, r3, hg⟩ := list_len4 hlen
  subst hg
  obtain ⟨a0, a1, a2, a3, h0⟩ := list_len4 (hrows r0 (by simp))
  obtain ⟨b0, b1, b2, b3, h1⟩ := list_len4 (hrows r1 (by simp))
  obtain ⟨c0, c1, c2, c3, h2⟩ := list_len4 (hrows r2 (by simp))
  obtain ⟨d0, d1, d2, d3, h3⟩ := list_len4 (hrows r3 (by simp))
  subst h0 h1 h2 h3
  exact ⟨a0, a1, a2, a3, b0, b1, b2, b3, c0, c1, c2, c3, d0, d1, d2, d3, rfl⟩

/-- C6: the four concrete `slide_line` evaluations stated in the
specification: `[1,1,0,0] ↦ [2,0,0,0]` moved, `[0,0,1,1] ↦ [2,0,0,0]` moved,
`[1,0,1,0] ↦ [2,0,0,0]` moved, `[0,0,0,0] ↦ [0,0,0,0]` not moved. -/
theorem claim_C6 :
    slide_line [1, 1, 0, 0] = ([2, 0, 0, 0], true) ∧
    slide_line [0, 0, 1, 1] = ([2, 0, 0, 0], true) ∧
    slide_line [1, 0, 1, 0] = ([2, 0, 0, 0], true) ∧
    slide_line [0, 0, 0, 0] = ([0, 0, 0, 0], false) := by decide

/-- C2 counterexample: `slide_line` is not idempotent.  On the line
`[1,1,1,1]` the first application yields `[2,2,0,0]` and the second
`[3,0,0,0]`, so `slide_line (slide_line L) ≠ slide_line L` at `L = [1,1,1,1]`. -/
theorem claim_C2_counterexample :
    (slide_line (slide_line [1, 1, 1, 1]).1).1 ≠ (slide_line [1, 1, 1, 1]).1 ∧
    (slide_line [1, 1, 1, 1]).1 = [2, 2, 0, 0] ∧
    (slide_line (slide_line [1, 1, 1, 1]).1).1 = [3, 0, 0, 0] := by decide

/-- C2 amended: `slide_line (slide_line L) = slide_line L` holds for every
4-cell line `L` whose once-slid result contains no adjacent equal non-zero
pair (no merge can fire in it); the second application then also reports
`moved = false`. -/
theorem claim_C2_amended (a b c d : Nat)
    (h : NoMergePair (slide_line [a, b, c, d]).1) :
    slide_line (slide_line [a, b, c, d]).1 = ((slide_line [a, b, c, d]).1, false) := by
  have hm1 := (slide_master a b c d).1
  have hnzxs : ∀ v ∈ nz4 (merge4 (nz4 [a, b, c, d])).1, v ≠ 0 := nz4_all_nz _
  have hnzL : nz4 ((slide_line [a, b, c, d]).1) = nz4 (merge4 (nz4 [a, b, c, d])).1 := by
    rw [hm1]
    exact nz4_pad4_of_nz hnzxs
  have hcomp : pad4 (nz4 ((slide_line [a, b, c, d]).1)) = (slide_line [a, b, c, d]).1 := by
    rw [hnzL, ← hm1]
  have hxslen : (nz4 (merge4 (nz4 [a, b, c, d])).1).length ≤ 4 := by
    have h1 := nz4_length_le (merge4 (nz4 [a, b, c, d])).1
    have h2 := merge4_length (nz4 [a, b, c, d])
    have h3 := nz4_length_le [a, b, c, d]
    simp at h3
    omega
  have hchain : (nz4 (merge4 (nz4 [a, b, c, d])).1).Chain' (fun u v => u ≠ v) := by
    apply chain_of_noMergePair hxslen hnzxs
    rw [← hm1]
    exact h
  have hmerge := merge4_of_chain hchain
  obtain ⟨p, q, r, s, hl⟩ := slide_line_destruct a b c d
  have hmaster := slide_master p q r s
  rw [← hl] at hmaster
  rw [Prod.ext_iff]
  constructor
  · rw [hmaster.1, hnzL, hmerge]
    simp only
    rw [nz4_idem, ← hnzL, hcomp]
  · have hfalse : ¬((slide_line ((slide_line [a, b, c, d]).1)).2 = true) := by
      rw [hmaster.2, hnzL, hmerge]
      simp only
      rw [← hm1]
      simp
    simpa using hfalse

/-- C9: `slide_line` preserves the total tile value `Σ 2^e` over non-zero
cells, for any 4-cell line of exponents all below 255 (no `u8` wrap). -/
theorem claim_C9 (a b c d : Nat) (ha : a < 255) (hb : b < 255) (hc : c < 255)
    (hd : d < 255) :
    lineValue (slide_line [a, b, c, d]).1 = lineValue [a, b, c, d] := by
  have hmem : ∀ v ∈ nz4 [a, b, c, d], v < 255 := by
    intro v hv
    have hvm := nz4_mem hv
    simp at hvm
    rcases hvm with h | h | h | h <;> omega
  rw [(slide_master a b c d).1, lineValue_pad4, lineValue_nz4,
    merge4_lineValue (nz4_all_nz _) hmem, lineValue_nz4]

/-- Witness for C9 at the line `[1,1,2,0]`. -/
theorem claim_C9_witness :
    (1 : Nat) < 255 ∧ (2 : Nat) < 255 ∧ (0 : Nat) < 255 ∧
    lineValue (slide_line [1, 1, 2, 0]).1 = lineValue [1, 1, 2, 0] :=
  ⟨by decide, by decide, by decide, claim_C9 1 1 2 0 (by decide) (by decide) (by decide) (by decide)⟩

/-- Witness for C2 amended at the line `[1,2,1,2]`, whose slide result is
itself and contains no adjacent equal pair. -/
theorem claim_C2_amended_witness :
    NoMergePair (slide_line [1, 2, 1, 2]).1 ∧
    slide_line (slide_line [1, 2, 1, 2]).1 = ((slide_line [1, 2, 1, 2]).1, false) := by
  have he : (slide_line [1, 2, 1, 2]).1 = [1, 2, 1, 2] := by decide
  have hnm : NoMergePair (slide_line [1, 2, 1, 2]).1 := by
    rw [he]
    intro i
    rcases i with _ | _ | _ | _ | i <;> simp [List.getD]
  exact ⟨hnm, claim_C2_amended 1 2 1 2 hnm⟩

theorem slideGrid_not_moved {grid : List (List Nat)} (hwf : WFGrid grid)
    (dir : Direction) (h : (slideGrid grid dir).2 = false) :
    (slideGrid grid dir).1 = grid := by
  obtain ⟨a0, a1, a2, a3, b0, b1, b2, b3, c0, c1, c2, c3, d0, d1, d2, d3, hg⟩ :=
    wf_destruct hwf
  subst hg
  cases dir
  case Left =>
    simp [slideGrid, grid_eq, range4, gridGet, gridSet, List.getD] at h ⊢
    obtain ⟨⟨⟨h1, h2⟩, h3⟩, h4⟩ := h
    exact ⟨slide_line_not_moved h1, slide_line_not_moved h2,
      slide_line_not_moved h3, slide_line_not_moved h4⟩
  case Right =>
    simp [slideGrid, grid_eq, range4, gridGet, gridSet, List.getD] at h ⊢
    obtain ⟨⟨⟨h1, h2⟩, h3⟩, h4⟩ := h
    exact ⟨slide_line_not_moved h1, slide_line_not_moved h2,
      slide_line_not_moved h3, slide_line_not_moved h4⟩
  case Up =>
    simp [slideGrid, grid_eq, range4, gridGet, gridSet, List.getD] at h ⊢
    obtain ⟨⟨⟨h1, h2⟩, h3⟩, h4⟩ := h
    simp [slide_line_not_moved h1, slide_line_not_moved h2,
      slide_line_not_moved h3, slide_line_not_moved h4, List.getD]
  case Down =>
    simp [slideGrid, grid_eq, range4, gridGet, gridSet, List.getD] at h ⊢
    obtain ⟨⟨⟨h1, h2⟩, h3⟩, h4⟩ := h
    simp [slide_line_not_moved h1, slide_line_not_moved h2,
      slide_line_not_moved h3, slide_line_not_moved h4, List.getD]

/-- C4: when `make_move` returns `false` the grid is bit-for-bit unchanged
and the PRNG state is unchanged (no spawn occurs, no draw is made). -/
theorem claim_C4 (g : Game) (dir : Direction) (hwf : WFGrid g.grid)
    (h : (g.make_move dir).1 = false) :
    ((g.make_move dir).2).grid = g.grid ∧ ((g.make_move dir).2).rng = g.rng := by
  unfold Game.make_move at h ⊢
  by_cases hm : (slideGrid g.grid dir).2
  · simp [hm] at h
  · simp [hm]
    exact slideGrid_not_moved hwf dir (by simpa using hm)

/-- Witness for C4: a left move on a board with a single tile already at the
left edge reports `moved = false` and changes nothing. -/
theorem claim_C4_witness :
    WFGrid (Game.mk [[1, 0, 0, 0], [0, 0, 0, 0], [0, 0, 0, 0], [0, 0, 0, 0]] 0 1).grid ∧
    ((Game.mk [[1, 0, 0, 0], [0, 0, 0, 0], [0, 0, 0, 0], [0, 0, 0, 0]] 0 1).make_move
      Direction.Left).1 = false ∧
    (((Game.mk [[1, 0, 0, 0], [0, 0, 0, 0], [0, 0, 0, 0], [0, 0, 0, 0]] 0 1).make_move
      Direction.Left).2).grid =
        [[1, 0, 0, 0], [0, 0, 0, 0], [0, 0, 0, 0], [0, 0, 0, 0]] ∧
    (((Game.mk [[1, 0, 0, 0], [0, 0, 0, 0], [0, 0, 0, 0], [0, 0, 0, 0]] 0 1).make_move
      Direction.Left).2).rng = 1 :=
  ⟨by decide, by decide,
    (claim_C4 _ Direction.Left (by decide) (by decide)).1,
    (claim_C4 _ Direction.Left (by decide) (by decide)).2⟩

theorem slideGrid_occupied_le {grid : List (List Nat)} (hwf : WFGrid grid)
    (dir : Direction) : occupied (slideGrid grid dir).1 ≤ occupied grid := by
  obtain ⟨a0, a1, a2, a3, b0, b1, b2, b3, c0, c1, c2, c3, d0, d1, d2, d3, hg⟩ :=
    wf_destruct hwf
  subst hg
  cases dir
  case Left =>
    simp [slideGrid, grid_eq, range4, gridGet, gridSet, List.getD, occupied]
    have h1 := slide_line_countNZ_le a0 a1 a2 a3
    have h2 := slide_line_countNZ_le b0 b1 b2 b3
    have h3 := slide_line_countNZ_le c0 c1 c2 c3
    have h4 := slide_line_countNZ_le d0 d1 d2 d3
    omega
  case Right =>
    simp [slideGrid, grid_eq, range4, gridGet, gridSet, List.getD, occupied]
    have h1 := slide_line_countNZ_le a3 a2 a1 a0
    have h2 := slide_line_countNZ_le b3 b2 b1 b0
    have h3 := slide_line_countNZ_le c3 c2 c1 c0
    have h4 := slide_line_countNZ_le d3 d2 d1 d0
    have e1 : countNZ ((slide_line [a3, a2, a1, a0]).1.reverse) =
        countNZ ((slide_line [a3, a2, a1, a0]).1) := countNZ_reverse _
    have e2 : countNZ ((slide_line [b3, b2, b1, b0]).1.reverse) =
        countNZ ((slide_line [b3, b2, b1, b0]).1) := countNZ_reverse _
    have e3 : countNZ ((slide_line [c3, c2, c1, c0]).1.reverse) =
        countNZ ((slide_line [c3, c2, c1, c0]).1) := countNZ_reverse _
    have e4 : countNZ ((slide_line [d3, d2, d1, d0]).1.reverse) =
        countNZ ((slide_line [d3, d2, d1, d0]).1) := countNZ_reverse _
    have f1 : countNZ [a3, a2, a1, a0] = countNZ [a0, a1, a2, a3] :=
      countNZ_reverse [a0, a1, a2, a3]
    have f2 : countNZ [b3, b2, b1, b0] = countNZ [b0, b1, b2, b3] :=
      countNZ_reverse [b0, b1, b2, b3]
    have f3 : countNZ [c3, c2, c1, c0] = countNZ [c0, c1, c2, c3] :=
      countNZ_reverse [c0, c1, c2, c3]
    have f4 : countNZ [d3, d2, d1, d0] = countNZ [d0, d1, d2, d3] :=
      countNZ_reverse [d0, d1, d2, d3]
    omega
  case Up =>
    obtain ⟨p0, p1, p2, p3, hp⟩ := slide_line_destruct a0 b0 c0 d0
    obtain ⟨q0, q1, q2, q3, hq⟩ := slide_line_destruct a1 b1 c1 d1
    obtain ⟨r0, r1, r2, r3, hr⟩ := slide_line_destruct a2 b2 c2 d2
    obtain ⟨s0, s1, s2, s3, hs⟩ := slide_line_destruct a3 b3 c3 d3
    have h1 := slide_line_countNZ_le a0 b0 c0 d0
    have h2 := slide_line_countNZ_le a1 b1 c1 d1
    have h3 := slide_line_countNZ_le a2 b2 c2 d2
    have h4 := slide_line_countNZ_le a3 b3 c3 d3
    rw [hp] at h1
    rw [hq] at h2
    rw [hr] at h3
    rw [hs] at h4
    simp [slideGrid, grid_eq, range4, gridGet, gridSet, List.getD]
    simp only [hp, hq, hr, hs]
    simp [List.getD, occupied, countNZ]
    simp [countNZ] at h1 h2 h3 h4
    omega
  case Down =>
    obtain ⟨p0, p1, p2, p3, hp⟩ := slide_line_destruct d0 c0 b0 a0
    obtain ⟨q0, q1, q2, q3, hq⟩ := slide_line_destruct d1 c1 b1 a1
    obtain ⟨r0, r1, r2, r3, hr⟩ := slide_line_destruct d2 c2 b2 a2
    obtain ⟨s0, s1, s2, s3, hs⟩ := slide_line_destruct d3 c3 b3 a3
    have h1 := slide_line_countNZ_le d0 c0 b0 a0
    have h2 := slide_line_countNZ_le d1 c1 b1 a1
    have h3 := slide_line_countNZ_le d2 c2 b2 a2
    have h4 := slide_line_countNZ_le d3 c3 b3 a3
    rw [hp] at h1
    rw [hq] at h2
    rw [hr] at h3
    rw [hs] at h4
    simp [slideGrid, grid_eq, range4, gridGet, gridSet, List.getD]
    simp only [hp, hq, hr, hs]
    simp [List.getD, occupied, countNZ]
    simp [countNZ] at h1 h2 h3 h4
    omega

/-- C5: `make_move` increases the occupied-cell count by at most one, and
leaves it unchanged whenever it returns `false`. -/
theorem claim_C5 (g : Game) (dir : Direction) (hwf : WFGrid g.grid) :
    occupied ((g.make_move dir).2).grid ≤ occupied g.grid + 1 ∧
    ((g.make_move dir).1 = false →
      occupied ((g.make_move dir).2).grid = occupied g.grid) := by
  unfold Game.make_move
  by_cases hm : (slideGrid g.grid dir).2
  · simp [hm]
    have h1 := spawn_occupied_le { g with grid := (slideGrid g.grid dir).1 }
    have h2 := slideGrid_occupied_le hwf dir
    simp at h1
    omega
  · have hmf : (slideGrid g.grid dir).2 = false := by simpa using hm
    simp [hm, slideGrid_not_moved hwf dir hmf]

/-- Witness for C5: a left move on a board with one tile away from the left
edge moves it and spawns exactly one new tile. -/
theorem claim_C5_witness :
    WFGrid (Game.mk [[0, 1, 0, 0], [0, 0, 0, 0], [0, 0, 0, 0], [0, 0, 0, 0]] 0 1).grid ∧
    occupied (((Game.mk [[0, 1, 0, 0], [0, 0, 0, 0], [0, 0, 0, 0], [0, 0, 0, 0]] 0 1).make_move
      Direction.Left).2).grid ≤
      occupied (Game.mk [[0, 1, 0, 0], [0, 0, 0, 0], [0, 0, 0, 0], [0, 0, 0, 0]] 0 1).grid + 1 :=
  ⟨by decide,
    (claim_C5 (Game.mk [[0, 1, 0, 0], [0, 0, 0, 0], [0, 0, 0, 0], [0, 0, 0, 0]] 0 1)
      Direction.Left (by decide)).1⟩

/-- C1 counterexample: at `Game::new` (seed 1) the second PRNG draw has
non-zero low two bits, yet `spawn_tile` writes exponent 1 (a "2" tile) where
the claim's rule (exponent 2 when the low bits are non-zero) would write 2:
the code disagrees with the claim-described operation `spawnClaimed`. -/
theorem claim_C1_counterexample :
    xorshift32 (xorshift32 (Game.new).rng) &&& 3 ≠ 0 ∧
    Game.new.spawn_tile ≠ Game.new.spawnClaimed ∧
    gridGet (Game.new.spawn_tile).grid 0 1 = 1 ∧
    gridGet (Game.new.spawnClaimed).grid 0 1 = 2 := by decide

/-- C1 amended: for every state with an empty cell, `spawn_tile` draws one
PRNG value, reduces it modulo the empty count to select among the row-major
empties, draws a second PRNG value, and sets the selected cell's exponent to
2 when the second draw's low two bits are zero (probability 1/4) and to 1
when they are non-zero (probability 3/4); the PRNG ends two steps advanced
and the score is untouched. -/
theorem claim_C1_amended (g : Game) (h : empties g.grid ≠ []) :
    g.spawn_tile =
      { grid :=
          gridSet g.grid
            ((empties g.grid).getD (xorshift32 g.rng % (empties g.grid).length) 0 / GRID)
            ((empties g.grid).getD (xorshift32 g.rng % (empties g.grid).length) 0 % GRID)
            (if xorshift32 (xorshift32 g.rng) &&& 3 = 0 then 2 else 1),
        score := g.score,
        rng := xorshift32 (xorshift32 g.rng) } := by
  unfold Game.spawn_tile
  have hl : ¬(empties g.grid).length = 0 := by simpa using h
  simp [hl, Game.next_rand]

/-- Witness for C1 amended at `Game::new`. -/
theorem claim_C1_amended_witness :
    empties (Game.new).grid ≠ [] ∧
    Game.new.spawn_tile =
      { grid :=
          gridSet (Game.new).grid
            ((empties (Game.new).grid).getD
              (xorshift32 (Game.new).rng % (empties (Game.new).grid).length) 0 / GRID)
            ((empties (Game.new).grid).getD
              (xorshift32 (Game.new).rng % (empties (Game.new).grid).length) 0 % GRID)
            (if xorshift32 (xorshift32 (Game.new).rng) &&& 3 = 0 then 2 else 1),
        score := (Game.new).score,
        rng := xorshift32 (xorshift32 (Game.new).rng) } :=
  ⟨by decide, claim_C1_amended Game.new (by decide)⟩

/-- C3: two distinct letters and a register sample exist such that a genuine
0→1 transition of the second letter's bit is reported `false` because the
intervening query for the first letter latched the whole sample: from a
fresh keyboard, with both the W and S bits newly set, querying 's' directly
reports `true`, but querying 'w' first makes the subsequent 's' query
compare against the already-latched sample and miss the edge. -/
theorem claim_C3 :
    ∃ (X Y : Char) (current : Nat),
      X ≠ Y ∧
      (Keyboard.new.just_pressed Y current).1 = true ∧
      ((Keyboard.new.just_pressed X current).2.just_pressed Y current).1 = false :=
  ⟨'w', 's', (1 <<< 22) ||| (1 <<< 18), by decide, by decide, by decide⟩

/-- C7: for any letter key, polling `just_pressed` once per register sample
over the raw sample sequence `[0, bit, bit, 0]` from a fresh keyboard yields
the edge results `[false, true, false, false]`. -/
theorem claim_C7 (ch : Char) (idx : Nat) (h : letter_index ch = some idx) :
    (Keyboard.new.just_pressed ch 0).1 = false ∧
    ((Keyboard.new.just_pressed ch 0).2.just_pressed ch (1 <<< idx)).1 = true ∧
    (((Keyboard.new.just_pressed ch 0).2.just_pressed ch (1 <<< idx)).2.just_pressed
      ch (1 <<< idx)).1 = false ∧
    ((((Keyboard.new.just_pressed ch 0).2.just_pressed ch (1 <<< idx)).2.just_pressed
      ch (1 <<< idx)).2.just_pressed ch 0).1 = false := by
  have hm : (1 <<< idx) &&& (1 <<< idx) = 1 <<< idx := Nat.and_self _
  have hz : 0 &&& (1 <<< idx) = 0 := Nat.zero_and _
  have hnz : 1 <<< idx ≠ 0 := by
    rw [Nat.shiftLeft_eq]
    positivity
  simp [Keyboard.just_pressed, h, Keyboard.just_pressed_idx, Keyboard.new, hm, hz, hnz]

/-- Witness for C7 at the letter 'a' (bit index 0). -/
theorem claim_C7_witness :
    letter_index 'a' = some 0 ∧
    (Keyboard.new.just_pressed 'a' 0).1 = false ∧
    ((Keyboard.new.just_pressed 'a' 0).2.just_pressed 'a' (1 <<< 0)).1 = true ∧
    (((Keyboard.new.just_pressed 'a' 0).2.just_pressed 'a' (1 <<< 0)).2.just_pressed
      'a' (1 <<< 0)).1 = false ∧
    ((((Keyboard.new.just_pressed 'a' 0).2.just_pressed 'a' (1 <<< 0)).2.just_pressed
      'a' (1 <<< 0)).2.just_pressed 'a' 0).1 = false :=
  ⟨by decide, claim_C7 'a' 0 (by decide)⟩

theorem xorshift32_eq (x : Nat) : xorshift32 x =
    ((x ^^^ (x <<< 13 % 2 ^ 32)) ^^^ ((x ^^^ (x <<< 13 % 2 ^ 32)) >>> 17)) ^^^
      (((x ^^^ (x <<< 13 % 2 ^ 32)) ^^^ ((x ^^^ (x <<< 13 % 2 ^ 32)) >>> 17)) <<< 5
        % 2 ^ 32) := rfl

theorem mul_shift_cancel13 {y : Nat} (hy : y < 2 ^ 32)
    (h : y ^^^ (y <<< 13 % 2 ^ 32) = 0) : y = 0 := by
  have he : y = y <<< 13 % 2 ^ 32 := Nat.xor_eq_zero.mp h
  have hp : (2 : Nat) ^ 13 = 8192 := by norm_num
  rw [Nat.shiftLeft_eq, hp] at he
  have hme : Nat.ModEq (2 ^ 32) y (y * 8192) := by
    show y % 2 ^ 32 = y * 8192 % 2 ^ 32
    rw [Nat.mod_eq_of_lt hy]
    exact he
  have hdvd : (2 ^ 32 : Nat) ∣ y * 8192 - y :=
    (Nat.modEq_iff_dvd' (by omega)).mp hme
  have h8191 : y * 8192 - y = y * 8191 := by omega
  have hcop : Nat.Coprime (2 ^ 32) 8191 := by norm_num [Nat.Coprime]
  have hdy : (2 ^ 32 : Nat) ∣ y := hcop.dvd_of_dvd_mul_right (h8191 ▸ hdvd)
  exact Nat.eq_zero_of_dvd_of_lt hdy hy

theorem mul_shift_cancel5 {y : Nat} (hy : y < 2 ^ 32)
    (h : y ^^^ (y <<< 5 % 2 ^ 32) = 0) : y = 0 := by
  have he : y = y <<< 5 % 2 ^ 32 := Nat.xor_eq_zero.mp h
  have hp : (2 : Nat) ^ 5 = 32 := by norm_num
  rw [Nat.shiftLeft_eq, hp] at he
  have hme : Nat.ModEq (2 ^ 32) y (y * 32) := by
    show y % 2 ^ 32 = y * 32 % 2 ^ 32
    rw [Nat.mod_eq_of_lt hy]
    exact he
  have hdvd : (2 ^ 32 : Nat) ∣ y * 32 - y :=
    (Nat.modEq_iff_dvd' (by omega)).mp hme
  have h31 : y * 32 - y = y * 31 := by omega
  have hcop : Nat.Coprime (2 ^ 32) 31 := by norm_num [Nat.Coprime]
  have hdy : (2 ^ 32 : Nat) ∣ y := hcop.dvd_of_dvd_mul_right (h31 ▸ hdvd)
  exact Nat.eq_zero_of_dvd_of_lt hdy hy

theorem shiftR_cancel17 {y : Nat} (h : y ^^^ (y >>> 17) = 0) : y = 0 := by
  have he : y = y >>> 17 := Nat.xor_eq_zero.mp h
  rw [Nat.shiftRight_eq_div_pow] at he
  by_contra hy0
  have hpos : 0 < y := Nat.pos_of_ne_zero hy0
  have hlt : y / 2 ^ 17 < y := Nat.div_lt_self hpos (by norm_num)
  omega

theorem xorshift32_lt {x : Nat} (hlt : x < 2 ^ 32) : xorshift32 x < 2 ^ 32 := by
  rw [xorshift32_eq]
  have h1 : x <<< 13 % 2 ^ 32 < 2 ^ 32 := Nat.mod_lt _ (by norm_num)
  have h2 : x ^^^ (x <<< 13 % 2 ^ 32) < 2 ^ 32 := Nat.xor_lt_two_pow hlt h1
  have h3 : (x ^^^ (x <<< 13 % 2 ^ 32)) >>> 17 ≤ x ^^^ (x <<< 13 % 2 ^ 32) := by
    rw [Nat.shiftRight_eq_div_pow]
    exact Nat.div_le_self _ _
  have h4 : (x ^^^ (x <<< 13 % 2 ^ 32)) ^^^ ((x ^^^ (x <<< 13 % 2 ^ 32)) >>> 17) < 2 ^ 32 :=
    Nat.xor_lt_two_pow h2 (lt_of_le_of_lt h3 h2)
  exact Nat.xor_lt_two_pow h4 (Nat.mod_lt _ (by norm_num))

theorem xorshift32_ne_zero {x : Nat} (hlt : x < 2 ^ 32) (hx : x ≠ 0) :
    xorshift32 x ≠ 0 := by
  rw [xorshift32_eq]
  intro h0
  have hx1lt : x ^^^ (x <<< 13 % 2 ^ 32) < 2 ^ 32 :=
    Nat.xor_lt_two_pow hlt (Nat.mod_lt _ (by norm_num))
  generalize hx1 : x ^^^ (x <<< 13 % 2 ^ 32) = x1 at h0 hx1lt
  have hsr : x1 >>> 17 ≤ x1 := by
    rw [Nat.shiftRight_eq_div_pow]
    exact Nat.div_le_self _ _
  have hx2lt : x1 ^^^ (x1 >>> 17) < 2 ^ 32 :=
    Nat.xor_lt_two_pow hx1lt (lt_of_le_of_lt hsr hx1lt)
  generalize hx2 : x1 ^^^ (x1 >>> 17) = x2 at h0 hx2lt
  have hx2z : x2 = 0 := mul_shift_cancel5 hx2lt h0
  subst hx2z
  have hx1z : x1 = 0 := shiftR_cancel17 hx2
  subst hx1z
  have hxz : x = 0 := mul_shift_cancel13 hlt hx1
  exact hx hxz

theorem xorshift32_zero : xorshift32 0 = 0 := rfl

/-- C8: the xorshift32 step maps non-zero 32-bit states to non-zero states,
so from a non-zero seed the state never becomes zero under any number of
draws, while a zero seed stays zero forever. -/
theorem claim_C8 (n x : Nat) (hlt : x < 2 ^ 32) :
    (x ≠ 0 → xorshift32 x ≠ 0) ∧
    (x ≠ 0 → xorshift32^[n] x ≠ 0) ∧
    (x = 0 → xorshift32^[n] x = 0) := by
  have hiter : ∀ (m y : Nat), y < 2 ^ 32 → y ≠ 0 →
      xorshift32^[m] y ≠ 0 ∧ xorshift32^[m] y < 2 ^ 32 := by
    intro m
    induction m with
    | zero => intro y hy hy0; simpa using ⟨hy0, hy⟩
    | succ m ih =>
        intro y hy hy0
        rw [Function.iterate_succ_apply]
        exact ih (xorshift32 y) (xorshift32_lt hy) (xorshift32_ne_zero hy hy0)
  refine ⟨fun hx => xorshift32_ne_zero hlt hx, fun hx => (hiter n x hlt hx).1, fun hx => ?_⟩
  subst hx
  exact Function.iterate_fixed xorshift32_zero n

/-- Witness for C8 at seed 1 with three draws. -/
theorem claim_C8_witness :
    (1 : Nat) < 2 ^ 32 ∧ xorshift32 1 ≠ 0 ∧ xorshift32^[3] (1 : Nat) ≠ 0 :=
  ⟨by norm_num, (claim_C8 3 1 (by norm_num)).1 (by decide),
    (claim_C8 3 1 (by norm_num)).2.1 (by decide)⟩

theorem make_move_score (g : Game) (dir : Direction) :
    ((g.make_move dir).2).score = g.score := by
  unfold Game.make_move
  by_cases hm : (slideGrid g.grid dir).2
  · simp [hm, spawn_score]
  · simp [hm]

theorem reset_score (g : Game) : (g.reset).score = 0 := by
  unfold Game.reset
  simp [spawn_score]

/-- C10: `make_move` and `spawn_tile` never change the score, `reset` sets
it to 0, and consequently every state reachable from `Game::new` has score
0. -/
theorem claim_C10 :
    (∀ (g : Game) (dir : Direction), ((g.make_move dir).2).score = g.score) ∧
    (∀ g : Game, (g.spawn_tile).score = g.score) ∧
    (∀ g : Game, (g.reset).score = 0) ∧
    (∀ g : Game, Reachable g → g.score = 0) := by
  refine ⟨make_move_score, spawn_score, reset_score, ?_⟩
  intro g hg
  induction hg with
  | new => rfl
  | move g dir hr ih => rw [make_move_score]; exact ih
  | reset g hr ih => exact reset_score g

/-- Witness for C10 at the initial state. -/
theorem claim_C10_witness : Reachable Game.new ∧ (Game.new).score = 0 :=
  ⟨Reachable.new, claim_C10.2.2.2 Game.new Reachable.new⟩

end MyGameConsole
